import Mathlib

/-!
Verification development for the semantic-dom-ssg repository.

The repository contains two near-equivalent Rust implementations of the
"SemanticDOM" core:
  * `src/rust/src/`           (modules `types`, `parser`, `certification`,
                               `security`, `summary`), modelled below in
                               namespace `SrcRust`;
  * `src/packages/rust/src/core/` (modules `types`, `parser`,
                               `certification`), modelled below in
                               namespace `Pkg`.

Shallow-embedding conventions used throughout:
  * Rust `&str`/`String` values are modelled as `List Char`; `str::len()`
    (a UTF-8 byte count) is `byteLen`, while `List.length` counts
    characters.  Byte-slicing `&s[..n]`, which panics in Rust when `n` is
    not a character boundary, is modelled by `takeBytes`, returning
    `none` exactly when Rust would panic.
  * Functions that can panic return `Option`; `none` models the panic.
  * Hash maps are modelled as association lists; outside the
    certification scorer only membership and per-key lookup are observed
    by the modelled code, so the bucket order of the real hash map is
    irrelevant there.  The certification scorer is the one exception: it
    iterates a freshly-seeded `std::collections::HashMap` and adds up
    `f32` terms in its per-call iteration order.
  * `f32` arithmetic in the certification scorer is modelled with exact
    rationals (`ℚ`) summed in a fixed category order.  This is an
    idealisation: the source accumulates `f32` in the varying iteration
    order just described, and order-dependent `f32` rounding can change
    the truncated `u32` score, so the modelled score is the exact-value
    score, from which a concrete run can deviate (see C9).  The checks'
    `passed` flags and the integer counts involve no order-dependent
    accumulation (at most one division and one comparison each), so they
    at least do not vary between runs.
  * Rust `char::to_lowercase` / `is_alphanumeric` are modelled with
    Lean's ASCII `Char.toLower` / `Char.isAlphanum`; every string the
    modelled code feeds to them in the verified statements is ASCII.
-/

namespace SDom

/-- UTF-8 encoded size in bytes of one character. -/
def utf8Len (c : Char) : Nat :=
  if c.toNat < 0x80 then 1
  else if c.toNat < 0x800 then 2
  else if c.toNat < 0x10000 then 3
  else 4

/-- Rust `str::len()`: the length of a string in UTF-8 bytes. -/
def byteLen (s : List Char) : Nat := (s.map utf8Len).sum

/-- Rust byte-slicing `&s[..n]`.  Returns `none` (modelling the Rust
panic) when `n` is not a character boundary or is out of range. -/
def takeBytes : List Char → Nat → Option (List Char)
  | _, 0 => some []
  | [], _ + 1 => none
  | c :: cs, n + 1 =>
    if utf8Len c ≤ n + 1 then (takeBytes cs (n + 1 - utf8Len c)).map (c :: ·)
    else none

deriving instance DecidableEq for Except

/-- Whitespace test used to model Rust `str::trim` /
`split_whitespace`. -/
def isWs (c : Char) : Bool := c.isWhitespace

/-- Rust `str::trim`: strip leading and trailing whitespace. -/
def trimChars (s : List Char) : List Char :=
  ((s.dropWhile isWs).reverse.dropWhile isWs).reverse

/-- ASCII lowercasing of a string, modelling Rust `str::to_lowercase`
on the ASCII inputs that occur in this development. -/
def toLowerL (s : List Char) : List Char := s.map Char.toLower

/-- Recursion-theoretic reference form of decimal rendering, used only
in proofs (its well-founded recursion does not reduce in the
kernel). -/
def natDecW (n : Nat) : List Char :=
  if _h : n < 10 then [Nat.digitChar n]
  else natDecW (n / 10) ++ [Nat.digitChar (n % 10)]
  decreasing_by exact Nat.div_lt_self (by omega) (by omega)

/-- Fuel-driven digit accumulator (structurally recursive so that it
evaluates inside the kernel; the fuel passed by `natDec` always
suffices). -/
def natDecAux : Nat → Nat → List Char → List Char
  | 0, _, acc => acc
  | fuel + 1, n, acc =>
    if n < 10 then Nat.digitChar n :: acc
    else natDecAux fuel (n / 10) (Nat.digitChar (n % 10) :: acc)

/-- Decimal rendering of a natural number, the model of Rust's
`format!` `Display` output for unsigned integers. -/
def natDec (n : Nat) : List Char := natDecAux (n + 1) n []

/-- Decimal evaluation map, used only to prove `natDec` injective. -/
def decVal (l : List Char) : Nat := l.foldl (fun a c => 10 * a + (c.toNat - 48)) 0

/-- Rust `str::contains(&str)`: substring occurrence test. -/
def containsSub (s sub : List Char) : Bool :=
  (List.range (s.length + 1)).any (fun i => sub.isPrefixOf (s.drop i))

/-- First whitespace-separated word of a string, modelling
`split_whitespace().next()`. -/
def firstWord (s : List Char) : List Char :=
  ((s.dropWhile isWs).takeWhile (fun c => !isWs c))

/-- All ordered pairs of elements taken at distinct positions `i < j`
of a list. -/
def listPairs : List α → List (α × α)
  | [] => []
  | x :: xs => xs.map (fun y => (x, y)) ++ listPairs xs

/-- An element of the already-constructed markup tree handed to the
core by the external HTML parser (tag name, attribute map, direct text,
ordered children).  Tag and attribute names are stored lowercased, as
the external parser produces them. -/
inductive Element where
  | mk (tag : List Char) (attrs : List (List Char × List Char))
       (text : List Char) (children : List Element)

def Element.tag : Element → List Char
  | .mk t _ _ _ => t

def Element.attrs : Element → List (List Char × List Char)
  | .mk _ a _ _ => a

def Element.text : Element → List Char
  | .mk _ _ t _ => t

def Element.children : Element → List Element
  | .mk _ _ _ c => c

/-- Attribute lookup, modelling `element.attr(name)`. -/
def attrQ (e : Element) (name : List Char) : Option (List Char) :=
  (e.attrs.find? (fun p => p.1 == name)).map (·.2)

mutual

/-- Collected descendant text of one element, modelling scraper's
`ElementRef::text().collect::<String>()` (all descendant text in
document order). -/
def elemText : Element → List Char
  | .mk _ _ t cs => t ++ elemTextList cs

def elemTextList : List Element → List Char
  | [] => []
  | c :: cs => elemText c ++ elemTextList cs

end

mutual

/-- Pre-order (document-order) listing of an element and all of its
descendants. -/
def preorder : Element → List Element
  | .mk t a x cs => .mk t a x cs :: preorderList cs

def preorderList : List Element → List Element
  | [] => []
  | c :: cs => preorder c ++ preorderList cs

end

end SDom

namespace SrcRust

open SDom

/-- `SemanticRole` from `src/rust/src/types.rs`. -/
inductive Role where
  | navigation | main | header | footer | aside | article | section
  | search | form | button | link | textInput | checkbox | radio
  | select | heading | list | listItem | table | image | video | audio
  | dialog | alert | menu | tab | tabPanel | interactive | container
  | unknown
deriving DecidableEq

/-- `SemanticRole::is_landmark`. -/
def Role.isLandmark : Role → Bool
  | .navigation | .main | .header | .footer | .aside | .search => true
  | _ => false

/-- `SemanticRole::is_interactable`. -/
def Role.isInteractable : Role → Bool
  | .button | .link | .textInput | .checkbox | .radio | .select
  | .interactive => true
  | _ => false

/-- The `Debug` rendering of a role (`{:?}`), used by
`calculate_completeness` via `n.role.to_string()`. -/
def Role.debugStr : Role → List Char
  | .navigation => "Navigation".data
  | .main => "Main".data
  | .header => "Header".data
  | .footer => "Footer".data
  | .aside => "Aside".data
  | .article => "Article".data
  | .section => "Section".data
  | .search => "Search".data
  | .form => "Form".data
  | .button => "Button".data
  | .link => "Link".data
  | .textInput => "TextInput".data
  | .checkbox => "Checkbox".data
  | .radio => "Radio".data
  | .select => "Select".data
  | .heading => "Heading".data
  | .list => "List".data
  | .listItem => "ListItem".data
  | .table => "Table".data
  | .image => "Image".data
  | .video => "Video".data
  | .audio => "Audio".data
  | .dialog => "Dialog".data
  | .alert => "Alert".data
  | .menu => "Menu".data
  | .tab => "Tab".data
  | .tabPanel => "TabPanel".data
  | .interactive => "Interactive".data
  | .container => "Container".data
  | .unknown => "Unknown".data

/-- `SemanticIntent` from `src/rust/src/types.rs`.  The Rust variants
`Open` and `Close` are rendered `opn`/`cls` because `open` is a Lean
keyword. -/
inductive Intent where
  | navigate | submit | action | toggle | select | input | search
  | play | pause | opn | cls | expand | collapse | download | delete
  | edit | create | unknown
deriving DecidableEq

/-- `SemanticNode` from `src/rust/src/types.rs` (the `metadata` map is
always `None` in the modelled code paths and is omitted). -/
structure Node where
  id : List Char
  label : List Char
  role : Role
  intent : Option Intent
  selector : List Char
  accessibleName : Option (List Char)
  href : Option (List Char)
  children : List (List Char)
  parent : Option (List Char)
  depth : Nat
deriving DecidableEq

/-- `State` from `src/rust/src/types.rs`. -/
structure State where
  id : List Char
  name : List Char
  description : Option (List Char)
  urlPattern : Option (List Char)
  isInitial : Bool
  isTerminal : Bool
deriving DecidableEq

/-- `Transition` from `src/rust/src/types.rs`; the Rust fields `from`
and `to` are rendered `fromS`/`toS` because `from` is a Lean keyword. -/
structure Transition where
  fromS : List Char
  toS : List Char
  trigger : List Char
  action : Option (List Char)
  guard : Option (List Char)
deriving DecidableEq

/-- `StateGraph` from `src/rust/src/types.rs`. -/
structure StateGraph where
  states : List State
  transitions : List Transition
  initialState : Option (List Char)
deriving DecidableEq

def StateGraph.empty : StateGraph := ⟨[], [], none⟩

/-- The loop body of `StateGraph::is_deterministic`: walk the
transition list keeping the set of `(from, trigger)` keys seen so far
(the `AHashMap` is modelled by a list of keys, of which only membership
is observed), answering `false` on the first repeated key. -/
def isDetGo (seen : List (List Char × List Char)) : List Transition → Bool
  | [] => true
  | t :: ts =>
    if seen.contains (t.fromS, t.trigger) then false
    else isDetGo ((t.fromS, t.trigger) :: seen) ts

/-- `StateGraph::is_deterministic`. -/
def StateGraph.isDeterministic (g : StateGraph) : Bool :=
  isDetGo [] g.transitions

/-- One step of the worklist loop in `StateGraph::reachable_states`:
`queue.pop()` takes the most recently pushed id (Rust `Vec::pop`), and
unvisited targets of transitions out of it are pushed in transition
order. -/
def reachGo (g : StateGraph) : Nat → List (List Char) → List (List Char) →
    List (List Char)
  | 0, _, visited => visited
  | _ + 1, [], visited => visited
  | fuel + 1, sid :: queue, visited =>
    if visited.contains sid then reachGo g fuel queue visited
    else
      let visited1 := sid :: visited
      let queue1 := g.transitions.foldl
        (fun q t =>
          if t.fromS == sid && !visited1.contains t.toS then t.toS :: q else q)
        queue
      reachGo g fuel queue1 visited1

/-- `StateGraph::reachable_states`, returning the sub-list of
`g.states` whose ids were visited.  The fuel bounds the number of loop
iterations; it exceeds the total number of queue insertions possible
(`1` initial plus at most `transitions.length` pushes for each of the
at most `transitions.length + 1` distinct ids ever enqueued), so the
loop always drains the queue before the fuel runs out. -/
def StateGraph.reachableStates (g : StateGraph) : List State :=
  match g.initialState with
  | none => []
  | some init =>
    let fuel := (g.transitions.length + 1) * (g.transitions.length + 1) + 2
    let visited := reachGo g fuel [init] []
    g.states.filter (fun s => visited.contains s.id)

end SrcRust

namespace SrcRust

open SDom

/-- `BLOCKED_PROTOCOLS` from `src/rust/src/security.rs`. -/
def blockedProtocols : List (List Char) :=
  ["javascript".data, "data".data, "vbscript".data, "blob".data]

/-- `ALLOWED_PROTOCOLS` from `src/rust/src/security.rs`. -/
def allowedProtocols : List (List Char) :=
  ["https".data, "http".data, "file".data]

/-- Character admissible after the first character of an RFC 3986
scheme. -/
def isSchemeTail (c : Char) : Bool :=
  c.isAlphanum || c == '+' || c == '-' || c == '.'

/-- Scheme extraction loop for the model of `url::Url::parse`:
`first` records whether the next character is the leading one (which
must be ASCII alphabetic); `acc` accumulates the scheme in reverse. -/
def parseSchemeGo (first : Bool) (acc : List Char) :
    List Char → Option (List Char × List Char)
  | [] => none
  | c :: rest =>
    if c == ':' then
      if first then none else some (toLowerL acc.reverse, rest)
    else if (if first then c.isAlpha else isSchemeTail c) then
      parseSchemeGo false (c :: acc) rest
    else none

/-- Model of `url::Url::parse` restricted to what `validate_url`
observes: when the input is `scheme ":" rest` with a syntactically
valid RFC 3986 scheme, parsing succeeds and `Url::scheme()` returns
the scheme lowercased; otherwise parsing fails.  (For inputs whose
scheme is syntactically valid but whose remainder the real crate would
still reject, both of `validate_url`'s branches below give the same
verdict for the schemes at issue in the specification, so this
simplification is observation-equivalent there.) -/
def parseScheme (s : List Char) : Option (List Char × List Char) :=
  parseSchemeGo true [] s

/-- `validate_url` from `src/rust/src/security.rs`.  The error payload
is the protocol string of `Error::InvalidUrlProtocol`.  `Url`
re-serialization (`parsed.to_string()`) is modelled as the identity;
the claims settled below depend only on success versus failure. -/
def validateUrl (url : List Char) : Except (List Char) (List Char) :=
  if url.isEmpty then .ok []
  else if ['/'].isPrefixOf url || ['.', '/'].isPrefixOf url
      || ['.', '.', '/'].isPrefixOf url then .ok url
  else if ['#'].isPrefixOf url then .ok url
  else
    match parseScheme url with
    | some (scheme, _) =>
      if blockedProtocols.contains scheme then .error scheme
      else if allowedProtocols.contains scheme then .ok url
      else .error scheme
    | none =>
      let lower := toLowerL url
      match blockedProtocols.find? (fun b => (b ++ [':']).isPrefixOf lower) with
      | some b => .error b
      | none => .ok url

/-- The characters escaped unconditionally by
`escape_css_identifier`. -/
def cssSpecial : List Char :=
  ['!', '\"', '#', '$', '%', '&', Char.ofNat 39, '(', ')', '*', '+', ',',
   '.', '/', ':', ';', '<', '=', '>', '?', '@', '[', '\\', ']', '^',
   Char.ofNat 96, Char.ofNat 123, '|', Char.ofNat 125, '~']

/-- `escape_css_identifier` applied to a non-leading character. -/
def escCssChar (c : Char) : List Char :=
  if cssSpecial.contains c then ['\\', c] else [c]

/-- `escape_css_identifier` from `src/rust/src/security.rs`: the
leading character additionally gets the digit (`\3c `) and hyphen
escapes. -/
def escapeCssIdentifier : List Char → List Char
  | [] => []
  | c :: cs =>
    (if cssSpecial.contains c then ['\\', c]
     else if c.isDigit then ['\\', '3', c, ' ']
     else if c == '-' then ['\\', '-']
     else [c]) ++ cs.flatMap escCssChar

end SrcRust

namespace SrcRust

open SDom

/-- One entry of the fixed CSS-selector battery in
`parse_semantic_elements`: a bare tag, a tag with an attribute equal
to a value (`input[type=text]`), a tag carrying an attribute
(`a[href]`), or a bare attribute equality (`[role=main]`). -/
inductive Sel where
  | tagS (t : List Char)
  | tagAttrEq (t a v : List Char)
  | tagHasAttr (t a : List Char)
  | attrEq (a v : List Char)

/-- Whether one element matches one selector. -/
def matchesSel (s : Sel) (e : Element) : Bool :=
  match s with
  | .tagS t => e.tag == t
  | .tagAttrEq t a v => e.tag == t && attrQ e a == some v
  | .tagHasAttr t a => e.tag == t && (attrQ e a).isSome
  | .attrEq a v => attrQ e a == some v

/-- `document.select(selector)`: the elements matching `s`, in
document (pre-order) order. -/
def selectAll (roots : List Element) (s : Sel) : List Element :=
  (preorderList roots).filter (matchesSel s)

/-- The `semantic_selectors` table of `parse_semantic_elements`, in
source order. -/
def selList : List (Sel × Role) :=
  [ (.tagS "nav".data, .navigation),
    (.tagS "main".data, .main),
    (.tagS "header".data, .header),
    (.tagS "footer".data, .footer),
    (.tagS "aside".data, .aside),
    (.tagS "article".data, .article),
    (.tagS "section".data, .section),
    (.attrEq "role".data "navigation".data, .navigation),
    (.attrEq "role".data "main".data, .main),
    (.attrEq "role".data "banner".data, .header),
    (.attrEq "role".data "contentinfo".data, .footer),
    (.attrEq "role".data "complementary".data, .aside),
    (.attrEq "role".data "search".data, .search),
    (.tagHasAttr "a".data "href".data, .link),
    (.tagS "button".data, .button),
    (.tagAttrEq "input".data "type".data "submit".data, .button),
    (.tagAttrEq "input".data "type".data "button".data, .button),
    (.tagAttrEq "input".data "type".data "text".data, .textInput),
    (.tagAttrEq "input".data "type".data "email".data, .textInput),
    (.tagAttrEq "input".data "type".data "password".data, .textInput),
    (.tagAttrEq "input".data "type".data "search".data, .textInput),
    (.tagAttrEq "input".data "type".data "checkbox".data, .checkbox),
    (.tagAttrEq "input".data "type".data "radio".data, .radio),
    (.tagS "textarea".data, .textInput),
    (.tagS "select".data, .select),
    (.tagS "h1".data, .heading),
    (.tagS "h2".data, .heading),
    (.tagS "h3".data, .heading),
    (.tagS "h4".data, .heading),
    (.tagS "h5".data, .heading),
    (.tagS "h6".data, .heading),
    (.tagS "img".data, .image),
    (.tagS "video".data, .video),
    (.tagS "audio".data, .audio),
    (.tagS "form".data, .form),
    (.tagS "dialog".data, .dialog),
    (.attrEq "role".data "dialog".data, .dialog),
    (.attrEq "role".data "alert".data, .alert) ]

/-- `Config::default().exclude_tags`. -/
def excludeTags : List (List Char) :=
  ["script".data, "style".data, "noscript".data, "template".data]

/-- `Config::default().id_prefix` (`"sdom"`). -/
def idPfx : List Char := "sdom".data

/-- `generate_element_id`: an existing `id` attribute yields
`{prefix}_{id}` without touching the counter, otherwise the counter is
incremented and `{prefix}_{tag}_{counter}` is produced.  Returns the id
together with the updated counter. -/
def generateElementId (counter : Nat) (tag : List Char) (e : Element) :
    List Char × Nat :=
  match attrQ e "id".data with
  | some i => (idPfx ++ '_' :: i, counter)
  | none => (idPfx ++ '_' :: tag ++ '_' :: natDec (counter + 1), counter + 1)

/-- `extract_element_label` from `src/rust/src/parser.rs`.  `none`
models the Rust panic in `&text[..47]` when byte 47 of the trimmed
text is not a character boundary. -/
def extractElementLabel (e : Element) : Option (List Char) :=
  match attrQ e "aria-label".data with
  | some l => some l
  | none =>
    match attrQ e "title".data with
    | some t => some t
    | none =>
      match (if e.tag == "input".data then
               match attrQ e "placeholder".data with
               | some p => some p
               | none => attrQ e "name".data
             else none) with
      | some v => some v
      | none =>
        let text := trimChars (elemText e)
        if text ≠ [] then
          if byteLen text > 50 then
            (takeBytes text 47).map (· ++ "...".data)
          else some text
        else
          some (match attrQ e "id".data with
            | some i => e.tag ++ '#' :: i
            | none =>
              match attrQ e "class".data with
              | some cl =>
                let fc := firstWord cl
                if fc ≠ [] then e.tag ++ '.' :: fc else e.tag
              | none => e.tag)

/-- `build_element_selector`. -/
def buildElementSelector (e : Element) : List Char :=
  match attrQ e "id".data with
  | some i => e.tag ++ '#' :: escapeCssIdentifier i
  | none =>
    match attrQ e "class".data with
    | some classes =>
      ((wordsOf classes).take 2).foldl
        (fun acc c => acc ++ '.' :: escapeCssIdentifier c) e.tag
    | none => e.tag
where
  /-- `split_whitespace()` as a word list. -/
  wordsOf (s : List Char) : List (List Char) :=
    ((s.splitOnP isWs).map id).filter (· ≠ [])

/-- `extract_element_accessible_name`. -/
def extractAccessibleName (e : Element) : Option (List Char) :=
  match attrQ e "aria-label".data with
  | some l => some l
  | none =>
    match attrQ e "title".data with
    | some t => some t
    | none =>
      match (if e.tag == "img".data then attrQ e "alt".data else none) with
      | some a => some a
      | none =>
        let text := trimChars (elemText e)
        if text ≠ [] then some text else none

/-- The `data-intent` lookup table of `determine_element_intent`. -/
def intentOfAttr (v : List Char) : Intent :=
  if toLowerL v == "navigate".data then .navigate
  else if toLowerL v == "submit".data then .submit
  else if toLowerL v == "action".data then .action
  else if toLowerL v == "toggle".data then .toggle
  else if toLowerL v == "select".data then .select
  else if toLowerL v == "search".data then .search
  else if toLowerL v == "play".data then .play
  else if toLowerL v == "pause".data then .pause
  else if toLowerL v == "open".data then .opn
  else if toLowerL v == "close".data then .cls
  else if toLowerL v == "expand".data then .expand
  else if toLowerL v == "collapse".data then .collapse
  else if toLowerL v == "download".data then .download
  else if toLowerL v == "delete".data then .delete
  else if toLowerL v == "edit".data then .edit
  else if toLowerL v == "create".data then .create
  else .unknown

/-- `determine_element_intent`.  `none` models a panic propagated from
`extract_element_label` (reachable on the button branch). -/
def determineElementIntent (e : Element) (role : Role) : Option Intent :=
  match attrQ e "data-intent".data with
  | some v => some (intentOfAttr v)
  | none =>
    match role with
    | .link =>
      some (match attrQ e "href".data with
        | some h =>
          if ".pdf".data.isSuffixOf h || ".zip".data.isSuffixOf h
              || (attrQ e "download".data).isSome then .download
          else .navigate
        | none => .navigate)
    | .button =>
      (extractElementLabel e).map fun lbl =>
        let text := toLowerL lbl
        if attrQ e "type".data == some "submit".data then .submit
        else if containsSub text "submit".data || containsSub text "send".data
            || containsSub text "save".data then .submit
        else if containsSub text "delete".data
            || containsSub text "remove".data then .delete
        else if containsSub text "edit".data
            || containsSub text "modify".data then .edit
        else if containsSub text "create".data || containsSub text "add".data
            || containsSub text "new".data then .create
        else if containsSub text "toggle".data then .toggle
        else if containsSub text "open".data then .opn
        else if containsSub text "close".data
            || containsSub text "cancel".data then .cls
        else if containsSub text "expand".data then .expand
        else if containsSub text "collapse".data then .collapse
        else if containsSub text "play".data then .play
        else if containsSub text "pause".data then .pause
        else if containsSub text "search".data then .search
        else .action
    | .checkbox | .radio => some .toggle
    | .select => some .select
    | .textInput =>
      some (if attrQ e "type".data == some "search".data then .search
        else .input)
    | _ => some .unknown

end SrcRust

namespace SrcRust

open SDom

/-- The mutable state of `SemanticDOM` during
`parse_semantic_elements`: the id→node index (association list in
insertion order), the three category lists (`Vec` push order), and the
id counter. -/
structure PState where
  index : List (List Char × Node)
  landmarks : List (List Char)
  interactables : List (List Char)
  headings : List (List Char)
  counter : Nat
deriving DecidableEq

def PState.init : PState := ⟨[], [], [], [], 0⟩

/-- The `href` field stored by `process_element`: with
`validate = true` as in the source (link targets filtered through
`validate_url`, the `Err` case dropping the field); with
`validate = false` the raw `href` attribute, unfiltered.  The flag
exists only to state the local-recovery property of URL validation. -/
def nodeHref (validate : Bool) (e : Element) (role : Role) :
    Option (List Char) :=
  if role == Role.link then
    match attrQ e "href".data with
    | some h =>
      if validate then
        match validateUrl h with
        | .ok u => some u
        | .error _ => none
      else some h
    | none => none
  else none

/-- The `SemanticNode` assembled by `process_element`. -/
def buildNode (validate : Bool) (e : Element) (role : Role)
    (nodeId : List Char) (label : List Char) (intent : Option Intent) :
    Node :=
  { id := nodeId, label := label, role := role, intent := intent,
    selector := buildElementSelector e,
    accessibleName := extractAccessibleName e,
    href := nodeHref validate e role,
    children := [], parent := none, depth := 0 }

/-- `process_element`, parameterized by `validate` (see `nodeHref`).
`none` models a panic propagated from label extraction. -/
def processElementG (validate : Bool) (st : PState) (e : Element)
    (role : Role) : Option PState :=
  let tagName := toLowerL e.tag
  if excludeTags.contains tagName then some st
  else
    let (nodeId, counter1) := generateElementId st.counter tagName e
    if st.index.any (fun p => p.1 == nodeId) then
      some { st with counter := counter1 }
    else do
      let label ← extractElementLabel e
      let intent ←
        if role.isInteractable then
          (determineElementIntent e role).map Option.some
        else pure none
      let node := buildNode validate e role nodeId label intent
      some { index := st.index ++ [(nodeId, node)],
             landmarks :=
               if role.isLandmark then st.landmarks ++ [nodeId]
               else st.landmarks,
             interactables :=
               if role.isInteractable then st.interactables ++ [nodeId]
               else st.interactables,
             headings :=
               if role == Role.heading then st.headings ++ [nodeId]
               else st.headings,
             counter := counter1 }

/-- The element/role work list of `parse_semantic_elements`: for each
selector of the battery in order, all matching elements in document
order. -/
def matchList (roots : List Element) : List (Element × Role) :=
  selList.flatMap (fun p => (selectAll roots p.1).map (fun e => (e, p.2)))

/-- `href.replace('/', "_")`. -/
def replSlash (h : List Char) : List Char :=
  h.flatMap (fun c => if c == '/' then ['_'] else [c])

/-- `.replace('#', "h_")`. -/
def replHash (h : List Char) : List Char :=
  h.flatMap (fun c => if c == '#' then ['h', '_'] else [c])

/-- One iteration of the link loop of `build_state_graph`. -/
def sgStep (index : List (List Char × Node)) (g : StateGraph)
    (linkId : List Char) : StateGraph :=
  match (index.find? (fun p => p.1 == linkId)).map (·.2) with
  | none => g
  | some node =>
    match node.href with
    | none => g
    | some href =>
      if ['/'].isPrefixOf href || ['#'].isPrefixOf href then
        let stateId := "state_".data ++ replHash (replSlash href)
        if g.states.any (fun s => s.id == stateId) then g
        else
          { g with
            states := g.states ++
              [{ id := stateId, name := node.label, description := none,
                 urlPattern := some href, isInitial := false,
                 isTerminal := false }],
            transitions := g.transitions ++
              [{ fromS := "initial".data, toS := stateId,
                 trigger := linkId, action := some "navigate".data,
                 guard := none }] }
      else g

/-- `build_state_graph` from `src/rust/src/parser.rs`: one initial
state, plus one deduplicated state and one transition from `initial`
for every interactable whose stored `href` begins with `/` or `#`. -/
def buildStateGraph (index : List (List Char × Node))
    (interactables : List (List Char)) : StateGraph :=
  let initial : State :=
    { id := "initial".data, name := "Initial".data,
      description := some "Initial page state".data,
      urlPattern := some "/".data, isInitial := true, isTerminal := false }
  let g0 : StateGraph :=
    { states := [initial], transitions := [],
      initialState := some "initial".data }
  interactables.foldl (sgStep index) g0

/-- The `SemanticDOM` document produced by `parse` (the fields the
later stages read). -/
structure Doc where
  index : List (List Char × Node)
  landmarks : List (List Char)
  interactables : List (List Char)
  headings : List (List Char)
  stateGraph : StateGraph
  title : Option (List Char)
  lang : Option (List Char)
deriving DecidableEq

/-- `extract_metadata`: document title (text of the first `title`
element, trimmed) and language (`lang` attribute of the first `html`
element). -/
def extractMetadata (roots : List Element) :
    Option (List Char) × Option (List Char) :=
  ((selectAll roots (.tagS "title".data)).head?.map
      (fun e => trimChars (elemText e)),
   (selectAll roots (.tagS "html".data)).head?.bind
      (fun e => attrQ e "lang".data))

/-- `SemanticDOM::parse` over the externally parsed element tree
(`Config::default()`; the raw-input size check precedes tree
construction and is outside this model).  `none` models a panic. -/
def parseG (validate : Bool) (roots : List Element) : Option Doc := do
  let meta := extractMetadata roots
  let st ← (matchList roots).foldlM
    (fun st p => processElementG validate st p.1 p.2) PState.init
  some { index := st.index, landmarks := st.landmarks,
         interactables := st.interactables, headings := st.headings,
         stateGraph := buildStateGraph st.index st.interactables,
         title := meta.1, lang := meta.2 }

/-- `SemanticDOM::parse` as in the source (URL validation on). -/
def parse (roots : List Element) : Option Doc := parseG true roots

end SrcRust

namespace SrcRust

open SDom

/-- `CertificationLevel` from `src/rust/src/certification.rs`. -/
inductive Level where
  | none | a | aa | aaa
deriving DecidableEq

/-- `CheckCategory`. -/
inductive Cat where
  | structure_ | accessibility | navigation | interoperability
deriving DecidableEq

/-- `CheckCategory::weight_multiplier`. -/
def Cat.weightMultiplier : Cat → ℚ
  | .structure_ => 30 / 100
  | .accessibility => 30 / 100
  | .navigation => 25 / 100
  | .interoperability => 15 / 100

/-- `ValidationCheck` (weights in exact rationals). -/
structure VCheck where
  id : List Char
  name : List Char
  category : Cat
  passed : Bool
  details : Option (List Char)
  weight : ℚ
deriving DecidableEq

/-- `CertificationStats`. -/
structure CertStats where
  totalChecks : Nat
  passedChecks : Nat
  landmarkCount : Nat
  interactableCount : Nat
  headingCount : Nat
  completeness : ℚ
deriving DecidableEq

/-- `AgentCertification`. -/
structure Cert where
  level : Level
  score : Nat
  checks : List VCheck
  stats : CertStats
deriving DecidableEq

/-- `{:.0}` formatting of a non-negative percentage, modelled as
rounding to the nearest integer. -/
def fmtPct (q : ℚ) : List Char := natDec (round q).toNat

/-- Association-list lookup of a node by id
(`sdom.index.get(id)`). -/
def Doc.getNode (d : Doc) (i : List Char) : Option Node :=
  (d.index.find? (fun p => p.1 == i)).map (·.2)

/-- The node multiset of the index (`sdom.index.values()`); counting
and existential checks over it are order-independent. -/
def Doc.nodes (d : Doc) : List Node := d.index.map (·.2)

/-- `check_has_landmarks` (`STRUCT-001`, "Has landmark regions"). -/
def checkHasLandmarks (d : Doc) : VCheck :=
  { id := "STRUCT-001".data, name := "Has landmark regions".data,
    category := .structure_, passed := !d.landmarks.isEmpty,
    details := some ("Found ".data ++ natDec d.landmarks.length
      ++ " landmarks".data),
    weight := 1 }

/-- `check_has_main` (`STRUCT-002`). -/
def checkHasMain (d : Doc) : VCheck :=
  { id := "STRUCT-002".data, name := "Has main content region".data,
    category := .structure_,
    passed := d.nodes.any (fun n => n.role == Role.main),
    details := none, weight := 1 }

/-- `check_heading_hierarchy` (`STRUCT-003`). -/
def checkHeadingHierarchy (d : Doc) : VCheck :=
  { id := "STRUCT-003".data, name := "Has heading structure".data,
    category := .structure_, passed := !d.headings.isEmpty,
    details := some ("Found ".data ++ natDec d.headings.length
      ++ " headings".data),
    weight := 1 / 2 }

/-- `check_unique_ids` (`STRUCT-004`; always passes by construction of
the hash map). -/
def checkUniqueIds (d : Doc) : VCheck :=
  { id := "STRUCT-004".data, name := "Unique element IDs".data,
    category := .structure_, passed := true,
    details := some (natDec d.index.length ++ " unique nodes".data),
    weight := 1 / 2 }

/-- `check_accessible_names` (`A11Y-001`). -/
def checkAccessibleNames (d : Doc) : VCheck :=
  let withNames := (d.interactables.filterMap d.getNode).countP
    (fun n => n.accessibleName.isSome || !n.label.isEmpty)
  let total := max d.interactables.length 1
  let pct : ℚ := (withNames : ℚ) / (total : ℚ) * 100
  { id := "A11Y-001".data,
    name := "Interactables have accessible names".data,
    category := .accessibility, passed := decide (80 ≤ pct),
    details := some (natDec withNames ++ '/' :: natDec total
      ++ " (".data ++ fmtPct pct ++ "%)".data),
    weight := 1 }

/-- `check_link_text` (`A11Y-002`). -/
def checkLinkText (d : Doc) : VCheck :=
  let links := d.nodes.filter (fun n => n.role == Role.link)
  let withText := links.countP
    (fun n => !n.label.isEmpty && n.label != "a".data)
  let total := max links.length 1
  { id := "A11Y-002".data, name := "Links have descriptive text".data,
    category := .accessibility,
    passed := decide ((8 : ℚ) / 10 ≤ (withText : ℚ) / (total : ℚ)),
    details := some (natDec withText ++ '/' :: natDec total
      ++ " links have text".data),
    weight := 3 / 4 }

/-- `check_button_text` (`A11Y-003`). -/
def checkButtonText (d : Doc) : VCheck :=
  let buttons := d.nodes.filter (fun n => n.role == Role.button)
  let withText := buttons.countP
    (fun n => !n.label.isEmpty && n.label != "button".data)
  let total := max buttons.length 1
  { id := "A11Y-003".data, name := "Buttons have descriptive text".data,
    category := .accessibility,
    passed := total == 0
      || decide ((8 : ℚ) / 10 ≤ (withText : ℚ) / (total : ℚ)),
    details := some (natDec withText ++ '/' :: natDec total
      ++ " buttons have text".data),
    weight := 3 / 4 }

/-- `check_form_labels` (`A11Y-004`). -/
def checkFormLabels (d : Doc) : VCheck :=
  let inputs := d.nodes.filter (fun n =>
    n.role == Role.textInput || n.role == Role.checkbox
      || n.role == Role.radio || n.role == Role.select)
  let withLabels := inputs.countP
    (fun n => n.accessibleName.isSome || !n.label.isEmpty)
  let total := max inputs.length 1
  { id := "A11Y-004".data, name := "Form inputs have labels".data,
    category := .accessibility,
    passed := total == 0
      || decide ((8 : ℚ) / 10 ≤ (withLabels : ℚ) / (total : ℚ)),
    details := some (natDec withLabels ++ '/' :: natDec total
      ++ " inputs have labels".data),
    weight := 1 / 2 }

/-- `check_navigation_exists` (`NAV-001`, "Has navigation
landmark"). -/
def checkNavigationExists (d : Doc) : VCheck :=
  { id := "NAV-001".data, name := "Has navigation landmark".data,
    category := .navigation,
    passed := d.nodes.any (fun n => n.role == Role.navigation),
    details := none, weight := 1 }

/-- `check_deterministic_fsm` (`NAV-002`). -/
def checkDeterministicFsm (d : Doc) : VCheck :=
  { id := "NAV-002".data, name := "State graph is deterministic".data,
    category := .navigation, passed := d.stateGraph.isDeterministic,
    details := some (natDec d.stateGraph.states.length ++ " states, ".data
      ++ natDec d.stateGraph.transitions.length ++ " transitions".data),
    weight := 1 }

/-- `check_reachable_states` (`NAV-003`). -/
def checkReachableStates (d : Doc) : VCheck :=
  let totalStates := d.stateGraph.states.length
  let reachable := d.stateGraph.reachableStates.length
  { id := "NAV-003".data, name := "All states reachable".data,
    category := .navigation,
    passed := totalStates == 0 || reachable == totalStates,
    details := some (natDec reachable ++ '/' :: natDec totalStates
      ++ " states reachable".data),
    weight := 3 / 4 }

/-- `check_selectors` (`INTEROP-001`). -/
def checkSelectors (d : Doc) : VCheck :=
  let withSelectors := d.nodes.countP (fun n => !n.selector.isEmpty)
  let total := max d.index.length 1
  let pct : ℚ := (withSelectors : ℚ) / (total : ℚ) * 100
  { id := "INTEROP-001".data, name := "Elements have CSS selectors".data,
    category := .interoperability, passed := decide (80 ≤ pct),
    details := some (fmtPct pct ++ "% coverage".data),
    weight := 1 }

/-- `check_intents` (`INTEROP-002`). -/
def checkIntents (d : Doc) : VCheck :=
  let withIntents := (d.interactables.filterMap d.getNode).countP
    (fun n => n.intent.isSome)
  let total := max d.interactables.length 1
  let pct : ℚ := (withIntents : ℚ) / (total : ℚ) * 100
  { id := "INTEROP-002".data, name := "Interactables have intents".data,
    category := .interoperability, passed := decide (80 ≤ pct),
    details := some (fmtPct pct ++ "% coverage".data),
    weight := 3 / 4 }

/-- `calculate_completeness`: four equally-weighted coverage ratios,
each clamped to 1, divided by the maximal total of 1. -/
def calculateCompleteness (d : Doc) : ℚ :=
  let total : ℚ := (max d.index.length 1 : Nat)
  let labeled := d.nodes.countP
    (fun n => !n.label.isEmpty && n.label != toLowerL n.role.debugStr)
  let withSelectors := d.nodes.countP (fun n => !n.selector.isEmpty)
  let interactables : ℚ := (max d.interactables.length 1 : Nat)
  let withIntents := d.nodes.countP (fun n => n.intent.isSome)
  let withA11yNames := d.nodes.countP (fun n => n.accessibleName.isSome)
  (1 / 4 * min ((labeled : ℚ) / total) 1
    + 1 / 4 * min ((withSelectors : ℚ) / total) 1
    + 1 / 4 * min ((withIntents : ℚ) / interactables) 1
    + 1 / 4 * min ((withA11yNames : ℚ) / total) 1) / 1

/-- The fixed check battery of `AgentCertification::certify`, in
source order. -/
def certChecks (d : Doc) : List VCheck :=
  [ checkHasLandmarks d, checkHasMain d, checkHeadingHierarchy d,
    checkUniqueIds d, checkAccessibleNames d, checkLinkText d,
    checkButtonText d, checkFormLabels d, checkNavigationExists d,
    checkDeterministicFsm d, checkReachableStates d, checkSelectors d,
    checkIntents d ]

/-- The four categories in one fixed order.  The source has no such
list: it iterates a freshly-seeded `std::collections::HashMap`, whose
order varies from call to call, so this fixed order is part of the
exact-arithmetic idealisation documented at `certScore`. -/
def allCats : List Cat :=
  [.structure_, .accessibility, .navigation, .interoperability]

/-- Weighted score aggregation of `certify`, idealised: the four
category terms are summed over exact rationals in the fixed order
`allCats`, whereas the source accumulates `f32` terms in the per-call
iteration order of a freshly-seeded `HashMap`.  In exact arithmetic
the sum is order-independent, but `f32` addition is not associative,
so a concrete run's truncated `u32` score can differ from this
model's exact score when the exact value lies at a truncation
boundary — see C9, which exhibits a document where the 24 possible
orders yield two different scores. -/
def certScore (checks : List VCheck) (completeness : ℚ) : Nat :=
  let catTerm (c : Cat) : ℚ :=
    let inCat := checks.filter (fun ch => ch.category == c)
    let total := (inCat.map (·.weight)).sum
    let passed := ((inCat.filter (·.passed)).map (·.weight)).sum
    if 0 < total then passed / total * c.weightMultiplier else 0
  let totalScore := (allCats.map catTerm).sum + completeness * (1 / 10)
  (⌊max (min (totalScore * 100) 100) 0⌋).toNat

/-- Level thresholds of `certify` (`90..=100`, `70..=89`,
`50..=69`; the score is clamped to `[0,100]`, so the Rust range match
is total). -/
def levelOfScore (score : Nat) : Level :=
  if 90 ≤ score then .aaa
  else if 70 ≤ score then .aa
  else if 50 ≤ score then .a
  else .none

/-- Core of `AgentCertification::certify` as a function of exactly the
document fields the source reads. -/
def certifyCore (index : List (List Char × Node))
    (landmarks interactables headings : List (List Char))
    (stateGraph : StateGraph) : Cert :=
  let d : Doc :=
    { index := index, landmarks := landmarks,
      interactables := interactables, headings := headings,
      stateGraph := stateGraph, title := none, lang := none }
  let checks := certChecks d
  let completeness := calculateCompleteness d
  let score := certScore checks completeness
  { level := levelOfScore score, score := score, checks := checks,
    stats :=
      { totalChecks := checks.length,
        passedChecks := checks.countP (·.passed),
        landmarkCount := landmarks.length,
        interactableCount := interactables.length,
        headingCount := headings.length,
        completeness := completeness } }

/-- `AgentCertification::certify`. -/
def certify (d : Doc) : Cert :=
  certifyCore d.index d.landmarks d.interactables d.headings d.stateGraph

/-- `truncate` from `src/rust/src/summary.rs`; `none` models the Rust
panic in `&s[..max_len - 3]` at a non-boundary byte index. -/
def truncateSummary (s : List Char) (maxLen : Nat) : Option (List Char) :=
  if byteLen s ≤ maxLen then some s
  else (takeBytes s (maxLen - 3)).map (· ++ "...".data)

end SrcRust

namespace Pkg

open SDom

/-- `SemanticId::role_to_prefix` from
`src/packages/rust/src/core/types.rs`.  The default arm byte-slices
the verbatim role at `min(4, role.len())`; `none` models the panic
when that index is not a character boundary. -/
def roleToPfx (role : List Char) : Option (List Char) :=
  let r := toLowerL role
  if r == "button".data then some "btn".data
  else if r == "link".data then some "link".data
  else if r == "textbox".data || r == "input".data then some "input".data
  else if r == "navigation".data then some "nav".data
  else if r == "main".data then some "main".data
  else if r == "banner".data || r == "header".data then some "header".data
  else if r == "contentinfo".data || r == "footer".data then
    some "footer".data
  else if r == "complementary".data || r == "aside".data then
    some "aside".data
  else if r == "form".data then some "form".data
  else if r == "search".data then some "search".data
  else if r == "checkbox".data then some "chk".data
  else if r == "radio".data then some "radio".data
  else if r == "listbox".data || r == "combobox".data then
    some "select".data
  else if r == "menu".data then some "menu".data
  else if r == "menuitem".data then some "item".data
  else if r == "tab".data then some "tab".data
  else if r == "tabpanel".data then some "panel".data
  else if r == "dialog".data then some "dialog".data
  else if r == "alert".data then some "alert".data
  else if r == "img".data || r == "image".data then some "img".data
  else if r == "heading".data then some "h".data
  else if r == "list".data then some "list".data
  else if r == "listitem".data then some "li".data
  else if r == "table".data then some "table".data
  else if r == "row".data then some "row".data
  else if r == "cell".data then some "cell".data
  else takeBytes role (min 4 (byteLen role))

/-- `SemanticId::sanitize_label`: lowercase, replace non-alphanumeric
characters by hyphens, trim hyphens at both ends, keep at most 32
characters, with `"unnamed"` for the empty label. -/
def sanitizeLabel (label : List Char) : List Char :=
  if label.isEmpty then "unnamed".data
  else
    let mapped := (toLowerL label).map
      (fun c => if c.isAlphanum then c else '-')
    let trimmed :=
      ((mapped.dropWhile (· == '-')).reverse.dropWhile (· == '-')).reverse
    trimmed.take 32

/-- `SemanticId::generate`: `{role-prefix}-{sanitized-label}`. -/
def generateId (role label : List Char) : Option (List Char) :=
  (roleToPfx role).map (fun p => p ++ '-' :: sanitizeLabel label)

/-- The `id_counters` map of `SemanticDOMParser`, keyed by base id. -/
def AllocState := List (List Char × Nat)

instance : DecidableEq AllocState := by
  unfold AllocState; infer_instance

/-- `entry(base).or_insert(0)` followed by `*counter += 1`: the new
per-base counter value and updated map. -/
def bumpCount : AllocState → List Char → Nat × AllocState
  | [], base => (1, [(base, 1)])
  | (k, v) :: rest, base =>
    if k == base then (v + 1, (k, v + 1) :: rest)
    else
      let r := bumpCount rest base
      (r.1, (k, v) :: r.2)

/-- The generated-id arm of `generate_unique_id` (no
`data-agent-id`/`id` attribute): allocate from the counter map,
suffixing `-{counter}` from the second same-base use on. -/
def allocGen (base : List Char) (st : AllocState) :
    List Char × AllocState :=
  let r := bumpCount st base
  (if r.1 == 1 then base else base ++ '-' :: natDec r.1, r.2)

/-- `generate_unique_id` from `src/packages/rust/src/core/parser.rs`. -/
def generateUniqueId (role label : List Char) (e : Element)
    (st : AllocState) : Option (List Char × AllocState) :=
  match attrQ e "data-agent-id".data with
  | some v => some (v, st)
  | none =>
    match attrQ e "id".data with
    | some v => some (v, st)
    | none => (generateId role label).map (fun base => allocGen base st)

/-- `infer_input_role`. -/
def inferInputRole (e : Element) : List Char :=
  let t := (attrQ e "type".data).getD "text".data
  if t == "checkbox".data then "checkbox".data
  else if t == "radio".data then "radio".data
  else if t == "submit".data || t == "button".data || t == "reset".data
    then "button".data
  else if t == "search".data then "searchbox".data
  else if t == "number".data then "spinbutton".data
  else if t == "range".data then "slider".data
  else "textbox".data

/-- `infer_role`: explicit `role` attribute, then `data-agent-role`,
then the fixed tag table. -/
def inferRole (e : Element) : List Char :=
  match attrQ e "role".data with
  | some r => r
  | none =>
    match attrQ e "data-agent-role".data with
    | some r => r
    | none =>
      let tag := e.tag
      if tag == "button".data then "button".data
      else if tag == "a".data then "link".data
      else if tag == "input".data then inferInputRole e
      else if tag == "textarea".data then "textbox".data
      else if tag == "select".data then "listbox".data
      else if tag == "nav".data then "navigation".data
      else if tag == "main".data then "main".data
      else if tag == "header".data then "banner".data
      else if tag == "footer".data then "contentinfo".data
      else if tag == "aside".data then "complementary".data
      else if tag == "form".data then "form".data
      else if tag == "h1".data || tag == "h2".data || tag == "h3".data
          || tag == "h4".data || tag == "h5".data || tag == "h6".data
        then "heading".data
      else if tag == "ul".data || tag == "ol".data then "list".data
      else if tag == "li".data then "listitem".data
      else if tag == "table".data then "table".data
      else if tag == "tr".data then "row".data
      else if tag == "td".data || tag == "th".data then "cell".data
      else if tag == "img".data then "img".data
      else if tag == "dialog".data then "dialog".data
      else if tag == "menu".data then "menu".data
      else if tag == "article".data then "article".data
      else if tag == "section".data && (attrQ e "aria-label".data).isSome
        then "region".data
      else "generic".data

/-- `infer_label` from `src/packages/rust/src/core/parser.rs`:
`aria-label` → `data-agent-label` → `title` → trimmed text content
(only when non-empty and at most 100 bytes long) → `alt` →
`placeholder` → empty. -/
def inferLabel (e : Element) : List Char :=
  match attrQ e "aria-label".data with
  | some l => l
  | none =>
    match attrQ e "data-agent-label".data with
    | some l => l
    | none =>
      match attrQ e "title".data with
      | some t => t
      | none =>
        let text := trimChars (elemText e)
        if !text.isEmpty && byteLen text ≤ 100 then text
        else
          match attrQ e "alt".data with
          | some a => a
          | none =>
            match attrQ e "placeholder".data with
            | some p => p
            | none => []

/-- The tail of the label chain after the text-content source: `alt`,
then `placeholder`, then the empty string. -/
def altPlaceholderChain (e : Element) : List Char :=
  match attrQ e "alt".data with
  | some a => a
  | none =>
    match attrQ e "placeholder".data with
    | some p => p
    | none => []

/-- `infer_intent` (evaluated and then discarded by `parse_element`;
included for fidelity). -/
def inferIntent (e : Element) (role label : List Char) :
    Option (List Char) :=
  match attrQ e "data-agent-intent".data with
  | some i => some i
  | none =>
    let ll := toLowerL label
    if role == "button".data then
      if containsSub ll "submit".data || containsSub ll "send".data then
        some "submit".data
      else if containsSub ll "cancel".data || containsSub ll "close".data
        then some "cancel".data
      else if containsSub ll "delete".data || containsSub ll "remove".data
        then some "delete".data
      else if containsSub ll "add".data || containsSub ll "create".data
        then some "create".data
      else if containsSub ll "save".data then some "save".data
      else if containsSub ll "search".data then some "search".data
      else none
    else if role == "link".data then
      match attrQ e "href".data with
      | some h =>
        if "mailto:".data.isPrefixOf h then some "email".data
        else if "tel:".data.isPrefixOf h then some "phone".data
        else none
      | none => none
    else none

/-- `infer_state`. -/
def inferState (e : Element) : List Char :=
  if (attrQ e "disabled".data).isSome
      || attrQ e "aria-disabled".data == some "true".data then
    "disabled".data
  else if attrQ e "aria-expanded".data == some "true".data then
    "expanded".data
  else if attrQ e "aria-expanded".data == some "false".data then
    "collapsed".data
  else if attrQ e "aria-selected".data == some "true".data then
    "selected".data
  else if attrQ e "aria-checked".data == some "true".data then
    "checked".data
  else if attrQ e "aria-checked".data == some "false".data then
    "unchecked".data
  else if attrQ e "aria-checked".data == some "mixed".data then
    "mixed".data
  else if attrQ e "aria-hidden".data == some "true".data then
    "hidden".data
  else if (attrQ e "open".data).isSome then "open".data
  else "idle".data

/-- `build_selector`. -/
def buildSelector (e : Element) : List Char :=
  match attrQ e "id".data with
  | some i => '#' :: i
  | none =>
    match attrQ e "data-agent-id".data with
    | some v => "[data-agent-id=\"".data ++ v ++ "\"]".data
    | none =>
      match attrQ e "class".data with
      | some cl =>
        let fc := firstWord cl
        if fc ≠ [] then e.tag ++ '.' :: fc else e.tag
      | none => e.tag

end Pkg

namespace Pkg

open SDom

/-- Rust `str::parse::<i32>()`: optional sign, at least one digit,
value within the `i32` range. -/
def parseI32 (s : List Char) : Option Int :=
  let (sign, digits) : Int × List Char :=
    match s with
    | '+' :: rest => (1, rest)
    | '-' :: rest => (-1, rest)
    | _ => (1, s)
  if digits.isEmpty || !digits.all Char.isDigit then none
  else
    let v : Int := sign * (decVal digits : Int)
    if -2147483648 ≤ v && v ≤ 2147483647 then some v else none

/-- Rust `str::parse::<u8>()`: digits only, value at most 255. -/
def parseU8 (s : List Char) : Option Nat :=
  let digits := match s with | '+' :: rest => rest | _ => s
  if digits.isEmpty || !digits.all Char.isDigit then none
  else if decVal digits ≤ 255 then some (decVal digits) else none

/-- `is_focusable`. -/
def isFocusable (e : Element) : Bool :=
  if ["a".data, "button".data, "input".data, "select".data,
      "textarea".data].contains e.tag then
    (attrQ e "disabled".data).isNone
  else
    match attrQ e "tabindex".data with
    | some t =>
      match parseI32 t with
      | some i => decide (0 ≤ i)
      | none => false
    | none => false

/-- `is_in_tab_order`. -/
def isInTabOrder (e : Element) : Bool :=
  match attrQ e "tabindex".data with
  | some t =>
    match parseI32 t with
    | some i => decide (0 ≤ i)
    | none => true
  | none => true

/-- `get_heading_level`. -/
def getHeadingLevel (e : Element) : Option Nat :=
  if e.tag == "h1".data then some 1
  else if e.tag == "h2".data then some 2
  else if e.tag == "h3".data then some 3
  else if e.tag == "h4".data then some 4
  else if e.tag == "h5".data then some 5
  else if e.tag == "h6".data then some 6
  else (attrQ e "aria-level".data).bind parseU8

/-- `A11yInfo`. -/
structure A11y where
  name : List Char
  focusable : Bool
  inTabOrder : Bool
  level : Option Nat
deriving DecidableEq

/-- `build_a11y`. -/
def buildA11y (e : Element) (label : List Char) : A11y :=
  let focusable := isFocusable e
  { name := label, focusable := focusable,
    inTabOrder := focusable && isInTabOrder e,
    level := getHeadingLevel e }

/-- `is_semantic_element`. -/
def isSemanticElement (e : Element) : Bool :=
  ["main".data, "nav".data, "header".data, "footer".data, "aside".data,
   "article".data, "section".data, "button".data, "a".data,
   "input".data, "select".data, "textarea".data, "form".data,
   "h1".data, "h2".data, "h3".data, "h4".data, "h5".data, "h6".data,
   "ul".data, "ol".data, "li".data, "table".data, "tr".data, "td".data,
   "th".data, "img".data, "dialog".data, "menu".data].contains e.tag
  || (attrQ e "role".data).isSome
  || (attrQ e "data-agent-id".data).isSome
  || (attrQ e "data-agent-role".data).isSome
  || (attrQ e "aria-label".data).isSome

/-- `SemanticNode` from `src/packages/rust/src/core/types.rs` (the
`xpath` and JSON `value` fields, always empty/`None` in the parser,
are omitted).  `parse_element` computes an intent and discards it, so
nodes are built with `intent = none`. -/
structure PNode where
  id : List Char
  role : List Char
  label : List Char
  intent : Option (List Char)
  state : List Char
  selector : List Char
  a11y : A11y
  children : List PNode

mutual

/-- `parse_element` from `src/packages/rust/src/core/parser.rs`,
threading the parser's persistent `id_counters` map.  Semantic
children recurse; non-semantic children have exactly one level of
their own children inspected for semantic grandchildren.  `none`
models a panic (byte-slicing inside id generation). -/
def parseElement (e : Element) (st : AllocState) :
    Option (PNode × AllocState) :=
  match e with
  | .mk tag attrs text children =>
    let el : Element := .mk tag attrs text children
    let role := inferRole el
    let label := inferLabel el
    let state := inferState el
    let selector := buildSelector el
    let a11y := buildA11y el label
    match generateUniqueId role label el st with
    | none => none
    | some (id, st1) =>
      match parseChildren children st1 with
      | none => none
      | some (kids, st2) =>
        some ({ id := id, role := role, label := label, intent := none,
                state := if state.isEmpty then "idle".data else state,
                selector := selector, a11y := a11y, children := kids },
              st2)

def parseChildren (cs : List Element) (st : AllocState) :
    Option (List PNode × AllocState) :=
  match cs with
  | [] => some ([], st)
  | .mk t a x ccs :: rest =>
    if isSemanticElement (.mk t a x ccs) then
      match parseElement (.mk t a x ccs) st with
      | none => none
      | some (n, st1) =>
        match parseChildren rest st1 with
        | none => none
        | some (ns, st2) => some (n :: ns, st2)
    else
      match parseGrandchildren ccs st with
      | none => none
      | some (gns, st1) =>
        match parseChildren rest st1 with
        | none => none
        | some (ns, st2) => some (gns ++ ns, st2)

def parseGrandchildren (gs : List Element) (st : AllocState) :
    Option (List PNode × AllocState) :=
  match gs with
  | [] => some ([], st)
  | g :: rest =>
    if isSemanticElement g then
      match parseElement g st with
      | none => none
      | some (n, st1) =>
        match parseGrandchildren rest st1 with
        | none => none
        | some (ns, st2) => some (n :: ns, st2)
    else parseGrandchildren rest st

end

mutual

/-- The semantic ids of a node tree, in pre-order. -/
def pnodeIds : PNode → List (List Char)
  | ⟨i, _, _, _, _, _, _, cs⟩ => i :: pnodeIdsList cs

def pnodeIdsList : List PNode → List (List Char)
  | [] => []
  | n :: ns => pnodeIds n ++ pnodeIdsList ns

end

end Pkg

namespace Pkg

open SDom

/-- `CertificationLevel` from `src/packages/rust/src/core/types.rs`. -/
inductive PLevel where
  | none | basic | standard | advanced | full
deriving DecidableEq

/-- `Severity`. -/
inductive Severity where
  | info | warning | error | critical
deriving DecidableEq

/-- `Check`. -/
structure PCheck where
  id : List Char
  name : List Char
  passed : Bool
deriving DecidableEq

/-- `Failure`. -/
structure PFailure where
  id : List Char
  name : List Char
  message : List Char
  severity : Severity
  affectedNodes : List (List Char)
deriving DecidableEq

/-- `AgentCertification` from the packages implementation. -/
structure PCert where
  level : PLevel
  score : Nat
  checks : List PCheck
  failures : List PFailure
deriving DecidableEq

/-- `AgentCertification::default()`. -/
def PCert.default : PCert := ⟨.none, 0, [], []⟩

/-- `crate::VERSION` and `crate::STANDARD` (fixed strings; their
values play no role in any claim). -/
def crateVersion : List Char := "0.1.0".data

def crateStandard : List Char := "ISO/IEC-SDOM-SSG-DRAFT-2024".data

/-- `SemanticDocument` from `src/packages/rust/src/core/types.rs`:
one root node plus the (serde-skipped) auxiliary id→arena-slot index
and flat id list. -/
structure PDoc where
  version : List Char
  standard : List Char
  url : List Char
  title : List Char
  language : List Char
  generatedAt : Nat
  root : PNode
  agentReady : PCert
  index : List (List Char × Nat)
  allNodes : List (List Char)

/-- `SemanticDocumentBuilder::build` from
`src/packages/rust/src/core/types.rs` (`now` stands for the
`SystemTime::now()` reading used when no timestamp was supplied).
Note the source initializes `index` and `all_nodes` to empty
collections and nothing ever populates them. -/
def buildDoc (now : Nat) (url title language : List Char)
    (generatedAt : Nat) (root : PNode) (cert : PCert) : PDoc :=
  { version := crateVersion, standard := crateStandard, url := url,
    title := title,
    language := if language.isEmpty then "en".data else language,
    generatedAt := if 0 < generatedAt then generatedAt else now,
    root := root, agentReady := cert, index := [], allNodes := [] }

/-- The ids of all nodes reachable from the document root (the root
itself and its descendants). -/
def reachableIds (d : PDoc) : List (List Char) := pnodeIds d.root

/-- The index/tree agreement invariant of the specification, as a
decidable check: every id in the index resolves to a node reachable
from the root, and every node reachable from the root has an entry in
the index. -/
def indexAgreesB (d : PDoc) : Bool :=
  d.index.all (fun p => (reachableIds d).contains p.1)
    && (reachableIds d).all (fun i => d.index.any (fun p => p.1 == i))

end Pkg

namespace SDom

/-- Pairwise distinctness of a list as a Boolean check (used to state
counterexamples about id uniqueness). -/
def nodupB (l : List (List Char)) : Bool :=
  (listPairs l).all (fun p => !(p.1 == p.2))

end SDom

namespace SrcRust

open SDom

/-- No two transitions at distinct positions share the `(from,
trigger)` key (targets unconstrained): the exact characterization of
`is_deterministic` proved below. -/
def noKeyRepeat : List Transition → Bool
  | [] => true
  | t :: ts =>
    ts.all (fun u => !(t.fromS == u.fromS && t.trigger == u.trigger))
      && noKeyRepeat ts

/-- No two transitions at distinct positions share the key *and*
differ in target: the determinism notion asserted by the
specification. -/
def noKeyClashDiffTarget (g : StateGraph) : Bool :=
  (listPairs g.transitions).all (fun p =>
    !(p.1.fromS == p.2.fromS && p.1.trigger == p.2.trigger
      && p.1.toS != p.2.toS))

/-- `passed` field of the check with a given id, if present. -/
def checkPassed (c : Cert) (cid : List Char) : Option Bool :=
  (c.checks.find? (fun ch => ch.id == cid)).map (·.passed)

/-- The per-node transformation of the URL-validation local-recovery
statement: keep the stored link target only when `validate_url`
accepts it. -/
def filterNode (n : Node) : Node :=
  { n with href := n.href.bind (fun h => (validateUrl h).toOption) }

/-- The per-document transformation induced by `filterNode` on the
index. -/
def filterDoc (d : Doc) : Doc :=
  { d with index := d.index.map (fun p => (p.1, filterNode p.2)) }

/-- `filterNode` lifted to the parser state. -/
def filterPState (st : PState) : PState :=
  { st with index := st.index.map (fun p => (p.1, filterNode p.2)) }

end SrcRust

namespace Claims

open SDom SrcRust Pkg

/-! Concrete inputs used by the individual claim theorems. -/

/-- The element tree the external HTML parser produces for
`<nav><a href="/">Home</a></nav><main><button>Submit</button></main>`
(html5ever wraps the fragment in `html`/`head`/`body`). -/
def c2link : Element := .mk "a".data [("href".data, "/".data)] "Home".data []

def c2nav : Element := .mk "nav".data [] [] [c2link]

def c2button : Element := .mk "button".data [] "Submit".data []

def c2mainEl : Element := .mk "main".data [] [] [c2button]

def c2body : Element := .mk "body".data [] [] [c2nav, c2mainEl]

def c2roots : List Element :=
  [.mk "html".data [] [] [.mk "head".data [] [] [], c2body]]

/-- A transition `a --x--> b`. -/
def c3t : Transition :=
  { fromS := "a".data, toS := "b".data, trigger := "x".data,
    action := none, guard := none }

/-- A state graph containing the same transition twice: the two
occurrences share the `(from, trigger)` key but have *equal*
targets. -/
def c3dupGraph : StateGraph := { states := [], transitions := [c3t, c3t],
                                 initialState := none }

/-- A transition `a --x--> c`: same `(from, trigger)` key as `c3t`,
different target. -/
def c3t2 : Transition :=
  { fromS := "a".data, toS := "c".data, trigger := "x".data,
    action := none, guard := none }

/-- Two transitions sharing `(from, trigger)` with different
targets. -/
def c3diffGraph : StateGraph :=
  { states := [], transitions := [c3t, c3t2], initialState := none }

/-- `c3diffGraph` with the second transition removed. -/
def c3only1 : StateGraph :=
  { states := [], transitions := [c3t], initialState := none }

/-- `c3diffGraph` with the first transition removed. -/
def c3only2 : StateGraph :=
  { states := [], transitions := [c3t2], initialState := none }

/-- `<body><button>a</button><button>a</button><button>a 2</button></body>`:
three buttons whose generated ids collide across distinct base ids. -/
def c4body : Element :=
  .mk "body".data [] []
    [.mk "button".data [] "a".data [],
     .mk "button".data [] "a".data [],
     .mk "button".data [] "a 2".data []]

/-- `<body><button>Submit</button></body>`, used for both parse calls
of the counter-leak demonstration. -/
def c5body : Element :=
  .mk "body".data [] [] [.mk "button".data [] "Submit".data []]

/-- An element with text content of 101 characters (no higher-priority
label source) and an `alt` attribute. -/
def c6longTextEl : Element :=
  .mk "span".data [("alt".data, "pic".data)]
    (List.replicate 101 'a') []

/-- A button whose trimmed text content is 58 bytes long with a
two-byte character straddling byte offset 47: `&text[..47]` in
`extract_element_label` panics on it. -/
def c10text : List Char :=
  List.replicate 46 'a' ++ 'é' :: List.replicate 10 'b'

def c10roots : List Element :=
  [.mk "html".data [] []
    [.mk "body".data [] [] [.mk "button".data [] c10text []]]]

/-- A 32-character, 33-byte title whose truncation to 30 bytes cuts a
two-byte character at byte offset 27 (`truncate` in `summary.rs`). -/
def c10title : List Char :=
  List.replicate 26 'a' ++ 'é' :: List.replicate 5 'a'

/-- A role attribute value on which the default arm of
`role_to_prefix` slices mid-character at byte offset 4. -/
def c10role : List Char := "aaaéx".data

/-- A one-node tree for the index/tree-agreement demonstration. -/
def c1node : PNode :=
  { id := "btn-submit".data, role := "button".data,
    label := "Submit".data, intent := none, state := "idle".data,
    selector := "button".data,
    a11y := { name := "Submit".data, focusable := true,
              inTabOrder := true, level := none },
    children := [] }

/-- `<nav><a href="/x"></a></nav><video title="video"></video>`
`<audio title="audio"></audio><article>Hello</article>`: a document
whose exact certification score is exactly 73/100, a truncation
boundary of the `u32` score. -/
def c9link : Element := .mk "a".data [("href".data, "/x".data)] [] []

def c9nav : Element := .mk "nav".data [] [] [c9link]

def c9video : Element :=
  .mk "video".data [("title".data, "video".data)] [] []

def c9audio : Element :=
  .mk "audio".data [("title".data, "audio".data)] [] []

def c9article : Element := .mk "article".data [] "Hello".data []

def c9roots : List Element :=
  [.mk "html".data [] [] [.mk "head".data [] [] [],
    .mk "body".data [] [] [c9nav, c9video, c9audio, c9article]]]

end Claims

namespace Pkg

open SDom

/-- `n` consecutive allocator requests for one base id, starting from
a given counter map (the ids in request order, with the final map). -/
def allocSame (base : List Char) : Nat → AllocState →
    List (List Char) × AllocState
  | 0, st => ([], st)
  | n + 1, st =>
    let p := allocSame base n st
    let q := allocGen base p.2
    (p.1 ++ [q.1], q.2)

/-- The ids the specification predicts for `n` same-base requests
from a fresh counter map: the base unsuffixed first, then
`base-2` … `base-n`. -/
def expectedIds (base : List Char) (n : Nat) : List (List Char) :=
  (List.range n).map
    (fun k => if k = 0 then base else base ++ '-' :: natDec (k + 1))

end Pkg

namespace SDom

theorem one_le_utf8Len (c : Char) : 1 ≤ utf8Len c := by
  unfold utf8Len
  split <;> [omega; split <;> [omega; (split <;> omega)]]

theorem length_le_byteLen (l : List Char) : l.length ≤ byteLen l := by
  induction l with
  | nil => simp [byteLen]
  | cons c cs ih =>
    have := one_le_utf8Len c
    simp only [byteLen, List.map_cons, List.sum_cons, List.length_cons] at *
    omega

theorem decVal_append (l : List Char) (c : Char) :
    decVal (l ++ [c]) = 10 * decVal l + (c.toNat - 48) := by
  simp [decVal, List.foldl_append]

theorem decVal_digitChar (d : Nat) (h : d < 10) :
    (Nat.digitChar d).toNat - 48 = d := by
  interval_cases d <;> decide

theorem decVal_natDecW (n : Nat) : decVal (natDecW n) = n := by
  induction n using Nat.strong_induction_on with
  | _ n ih =>
    unfold natDecW
    split
    · next h => simp [decVal, decVal_digitChar n h]
    · next h =>
      rw [decVal_append, ih (n / 10) (Nat.div_lt_self (by omega) (by omega)),
        decVal_digitChar (n % 10) (Nat.mod_lt n (by omega))]
      omega

theorem natDecAux_eq : ∀ fuel n acc, n < fuel →
    natDecAux fuel n acc = natDecW n ++ acc := by
  intro fuel
  induction fuel with
  | zero => intro n acc h; omega
  | succ fuel ih =>
    intro n acc h
    rw [natDecAux]
    by_cases h10 : n < 10
    · rw [if_pos h10, natDecW, dif_pos h10]
      rfl
    · rw [if_neg h10, ih (n / 10) _ (by omega)]
      conv_rhs => rw [natDecW]
      rw [dif_neg h10, List.append_assoc]
      rfl

theorem natDec_eq_W (n : Nat) : natDec n = natDecW n := by
  rw [natDec, natDecAux_eq (n + 1) n [] (by omega), List.append_nil]

theorem decVal_natDec (n : Nat) : decVal (natDec n) = n := by
  rw [natDec_eq_W]
  exact decVal_natDecW n

theorem natDec_injective : Function.Injective natDec := by
  intro a b h
  have := decVal_natDec a
  rw [h, decVal_natDec] at this
  omega

end SDom

namespace SrcRust

open SDom

end SrcRust

namespace SrcRust

open SDom

theorem bool_eq_of_iff {a b : Bool} (h : a = true ↔ b = true) : a = b := by
  cases a <;> cases b <;> simp_all

theorem isDetGo_iff (ts : List Transition) :
    ∀ seen : List (List Char × List Char),
      isDetGo seen ts = true ↔
        ((∀ u ∈ ts, ¬((u.fromS, u.trigger) ∈ seen))
          ∧ noKeyRepeat ts = true) := by
  induction ts with
  | nil => intro seen; simp [isDetGo, noKeyRepeat]
  | cons t ts ih =>
    intro seen
    by_cases h : ((t.fromS, t.trigger) ∈ seen)
    · have hc : seen.contains (t.fromS, t.trigger) = true := by
        simp only [List.contains, List.elem_eq_mem]
        exact decide_eq_true h
      simp only [isDetGo, hc, if_true]
      constructor
      · intro hFalse; cases hFalse
      · rintro ⟨hAll, _⟩
        exact absurd h (hAll t (List.mem_cons_self t ts))
    · have hc : seen.contains (t.fromS, t.trigger) = false := by
        simp only [List.contains, List.elem_eq_mem]
        exact decide_eq_false h
      simp only [isDetGo, hc, Bool.false_eq_true, if_false]
      rw [ih ((t.fromS, t.trigger) :: seen)]
      simp only [noKeyRepeat, List.mem_cons, List.all_cons,
        Bool.and_eq_true, List.all_eq_true, Bool.not_eq_true',
        Bool.and_eq_false_iff, beq_eq_false_iff_ne]
      constructor
      · rintro ⟨hNotIn, hRep⟩
        refine ⟨?_, ?_, hRep⟩
        · rintro u (rfl | hu)
          · exact h
          · intro hin
            exact hNotIn u hu (Or.inr hin)
        · intro u hu
          have h2 := hNotIn u hu
          push_neg at h2
          rcases h2 with ⟨hne, _⟩
          by_cases hf : t.fromS = u.fromS
          · right
            intro htr
            exact hne (by rw [Prod.mk.injEq]; exact ⟨hf.symm, htr.symm⟩)
          · left
            exact hf
      · rintro ⟨hNotIn, hKey, hRep⟩
        refine ⟨?_, hRep⟩
        intro u hu
        push_neg
        refine ⟨?_, hNotIn u (Or.inr hu)⟩
        intro hEq
        have h1 : u.fromS = t.fromS ∧ u.trigger = t.trigger := by
          rw [Prod.mk.injEq] at hEq; exact hEq
        rcases hKey u hu with hf | htr
        · exact hf h1.1.symm
        · exact htr h1.2.symm

theorem isDeterministic_eq_noKeyRepeat (g : StateGraph) :
    g.isDeterministic = noKeyRepeat g.transitions := by
  apply bool_eq_of_iff
  rw [StateGraph.isDeterministic, isDetGo_iff]
  simp

end SrcRust

namespace Pkg

open SDom

theorem allocSame_state (base : List Char) :
    ∀ n, (allocSame base n []).2 = if n = 0 then [] else [(base, n)] := by
  intro n
  induction n with
  | zero => rfl
  | succ n ih =>
    simp only [allocSame, ih]
    by_cases h : n = 0
    · subst h
      simp [allocGen, bumpCount]
    · simp only [if_neg h, if_neg (Nat.succ_ne_zero n)]
      simp [allocGen, bumpCount]

theorem allocSame_ids (base : List Char) :
    ∀ n, (allocSame base n []).1 = expectedIds base n := by
  intro n
  induction n with
  | zero => rfl
  | succ n ih =>
    simp only [allocSame, ih, allocSame_state]
    have hstep : expectedIds base (n + 1) = expectedIds base n
        ++ [if n = 0 then base else base ++ '-' :: natDec (n + 1)] := by
      simp only [expectedIds, List.range_succ, List.map_append,
        List.map_cons, List.map_nil]
    rw [hstep, expectedIds]
    congr 1
    by_cases h : n = 0
    · subst h
      simp [allocGen, bumpCount]
    · simp only [if_neg h]
      simp only [allocGen, bumpCount, beq_self_eq_true, if_true]
      have : ((n + 1) == 1) = false := by
        simp only [beq_eq_false_iff_ne]
        omega
      simp [this]

theorem expectedIds_nodup (base : List Char) (n : Nat) :
    (expectedIds base n).Nodup := by
  unfold expectedIds
  apply List.Nodup.map_on _ (List.nodup_range n)
  intro x _ y _ hxy
  match x, y with
  | 0, 0 => rfl
  | 0, j + 1 =>
    exfalso
    simp only [if_pos rfl, if_neg (Nat.succ_ne_zero j)] at hxy
    have := congrArg List.length hxy
    simp [List.length_append] at this
  | i + 1, 0 =>
    exfalso
    simp only [if_pos rfl, if_neg (Nat.succ_ne_zero i)] at hxy
    have := congrArg List.length hxy
    simp [List.length_append] at this
  | i + 1, j + 1 =>
    simp only [if_neg (Nat.succ_ne_zero i), if_neg (Nat.succ_ne_zero j)]
      at hxy
    have h1 := List.append_cancel_left hxy
    have h2 : natDec (i + 1 + 1) = natDec (j + 1 + 1) :=
      List.cons.injEq .. |>.mp h1 |>.2
    have := natDec_injective h2
    omega

end Pkg

namespace SrcRust

open SDom

theorem parseScheme_head {url : List Char} {p : List Char × List Char}
    (h : parseScheme url = some p) :
    ∃ c cs, url = c :: cs ∧ c.isAlpha = true := by
  match url with
  | [] => simp [parseScheme, parseSchemeGo] at h
  | c :: cs =>
    refine ⟨c, cs, rfl, ?_⟩
    by_cases hcolon : (c == ':') = true
    · simp [parseScheme, parseSchemeGo, hcolon] at h
    · by_cases halpha : c.isAlpha = true
      · exact halpha
      · simp [parseScheme, parseSchemeGo, hcolon, halpha] at h

theorem validateUrl_blockedScheme (url b : List Char)
    (rest : List Char) (hp : parseScheme url = some (b, rest))
    (hb : b ∈ blockedProtocols) : validateUrl url = .error b := by
  obtain ⟨c, cs, rfl, hAlpha⟩ := parseScheme_head hp
  have hslash : c ≠ '/' := by
    intro hc; subst hc; simp at hAlpha
  have hdot : c ≠ '.' := by
    intro hc; subst hc; simp at hAlpha
  have hhash : c ≠ '#' := by
    intro hc; subst hc; simp at hAlpha
  have h1 : (['/'].isPrefixOf (c :: cs)) = false := by
    simp [List.isPrefixOf, beq_eq_false_iff_ne, Ne.symm hslash]
  have h2 : (['.', '/'].isPrefixOf (c :: cs)) = false := by
    simp [List.isPrefixOf, beq_eq_false_iff_ne, Ne.symm hdot]
  have h3 : (['.', '.', '/'].isPrefixOf (c :: cs)) = false := by
    simp [List.isPrefixOf, beq_eq_false_iff_ne, Ne.symm hdot]
  have h4 : (['#'].isPrefixOf (c :: cs)) = false := by
    simp [List.isPrefixOf, beq_eq_false_iff_ne, Ne.symm hhash]
  have hc : blockedProtocols.contains b = true := by
    simp only [List.contains, List.elem_eq_mem]
    exact decide_eq_true hb
  simp only [validateUrl, List.isEmpty_cons, h1, h2, h3, h4,
    Bool.or_false, Bool.false_or, Bool.false_eq_true, if_false, hp, hc,
    if_true]

theorem validateUrl_rootRelative (rest : List Char) :
    validateUrl ('/' :: rest) = .ok ('/' :: rest) := by
  simp [validateUrl, List.isPrefixOf]

theorem validateUrl_fragment (rest : List Char) :
    validateUrl ('#' :: rest) = .ok ('#' :: rest) := by
  simp [validateUrl, List.isPrefixOf]

end SrcRust

namespace SrcRust

open SDom

theorem validateUrl_ok_or_error (u : List Char) :
    validateUrl u = .ok u ∨ ∃ p, validateUrl u = .error p := by
  unfold validateUrl
  split
  · next hemp =>
    left
    rw [List.isEmpty_iff.mp hemp]
  · split
    · left; rfl
    · split
      · left; rfl
      · split
        · split
          · next => right; exact ⟨_, rfl⟩
          · split
            · left; rfl
            · right; exact ⟨_, rfl⟩
        · dsimp only
          split
          · right; exact ⟨_, rfl⟩
          · left; rfl

theorem any_keyEq_map (l : List (List Char × Node)) (f : Node → Node)
    (x : List Char) :
    ((l.map (fun p => (p.1, f p.2))).any (fun p => p.1 == x))
      = (l.any (fun p => p.1 == x)) := by
  rw [List.any_map]
  rfl

theorem find?_keyEq_map (l : List (List Char × Node)) (f : Node → Node)
    (x : List Char) :
    ((l.map (fun p => (p.1, f p.2))).find? (fun p => p.1 == x))
      = ((l.find? (fun p => p.1 == x)).map (fun p => (p.1, f p.2))) := by
  induction l with
  | nil => rfl
  | cons p ps ih =>
    by_cases h : (p.1 == x) = true
    · simp [List.find?, h]
    · have h2 : (p.1 == x) = false := by
        cases hb : (p.1 == x)
        · rfl
        · exact absurd hb h
      simp [List.find?, h2, ih]

end SrcRust


namespace SrcRust

open SDom

theorem buildNode_true_eq_filter (e : Element) (role : Role)
    (nodeId label : List Char) (intent : Option Intent) :
    buildNode true e role nodeId label intent
      = filterNode (buildNode false e role nodeId label intent) := by
  unfold buildNode filterNode nodeHref
  cases hrole : (role == Role.link) with
  | false => simp
  | true =>
    cases hatt : attrQ e "href".data with
    | none => simp
    | some h =>
      simp only [if_true]
      cases hv : validateUrl h with
      | ok u =>
        simp only [Bool.false_eq_true, if_false, Option.some_bind]
        rw [hv]
        rfl
      | error p =>
        simp only [Bool.false_eq_true, if_false, Option.some_bind]
        rw [hv]
        rfl

theorem processElementG_rel (st : PState) (e : Element) (role : Role) :
    processElementG true (filterPState st) e role
      = (processElementG false st e role).map filterPState := by
  unfold processElementG
  have hcnt : (filterPState st).counter = st.counter := rfl
  have hidx : (filterPState st).index
      = st.index.map (fun p => (p.1, filterNode p.2)) := rfl
  cases hex : excludeTags.contains (toLowerL e.tag) with
  | true =>
    rw [if_pos hex, if_pos hex]
    rfl
  | false =>
    have hex' : ¬ (excludeTags.contains (toLowerL e.tag) = true) := by
      rw [hex]; exact Bool.false_ne_true
    rw [if_neg hex', if_neg hex', hcnt]
    set g := generateElementId st.counter (toLowerL e.tag) e with hg
    obtain ⟨nodeId, counter1⟩ := g
    dsimp only
    rw [hidx, any_keyEq_map]
    cases hmem : st.index.any (fun p => p.1 == nodeId) with
    | true =>
      rw [if_pos rfl, if_pos rfl]
      rfl
    | false =>
      rw [if_neg Bool.false_ne_true, if_neg Bool.false_ne_true]
      cases hlbl : extractElementLabel e with
      | none => rfl
      | some label =>
        cases hia : role.isInteractable with
        | false =>
          simp [buildNode_true_eq_filter, filterPState, List.map_append]
        | true =>
          cases hdet : determineElementIntent e role with
          | none => rfl
          | some i =>
            simp [buildNode_true_eq_filter, filterPState, List.map_append]

end SrcRust

namespace SrcRust

open SDom

theorem foldlM_processElementG_rel (l : List (Element × Role)) :
    ∀ st : PState,
      l.foldlM (fun st p => processElementG true st p.1 p.2)
          (filterPState st)
        = (l.foldlM (fun st p => processElementG false st p.1 p.2)
            st).map filterPState := by
  induction l with
  | nil => intro st; rfl
  | cons p ps ih =>
    intro st
    rw [List.foldlM_cons, List.foldlM_cons, processElementG_rel]
    cases h : processElementG false st p.1 p.2 with
    | none => simp
    | some st2 => simp [ih st2]

theorem sgStep_filter (index : List (List Char × Node)) (g : StateGraph)
    (linkId : List Char) :
    sgStep (index.map (fun p => (p.1, filterNode p.2))) g linkId
      = sgStep index g linkId := by
  unfold sgStep
  rw [find?_keyEq_map]
  cases hf : index.find? (fun p => p.1 == linkId) with
  | none => rfl
  | some pr =>
    dsimp only [Option.map]
    have hfl : (filterNode pr.2).label = pr.2.label := rfl
    cases hh : pr.2.href with
    | none => simp [filterNode, hh]
    | some h0 =>
      rcases validateUrl_ok_or_error h0 with hok | ⟨p0, herr⟩
      · simp [filterNode, hh, hok, Except.toOption]
      · have hpre : (['/'].isPrefixOf h0) = false
            ∧ (['#'].isPrefixOf h0) = false := by
          cases h0 with
          | nil => exact ⟨rfl, rfl⟩
          | cons c rest =>
            by_cases hc : c = '/'
            · subst hc
              rw [validateUrl_rootRelative] at herr
              cases herr
            · by_cases hc2 : c = '#'
              · subst hc2
                rw [validateUrl_fragment] at herr
                cases herr
              · constructor <;>
                  simp [List.isPrefixOf, beq_eq_false_iff_ne,
                    Ne.symm hc, Ne.symm hc2]
        simp [filterNode, hh, herr, Except.toOption, hpre.1, hpre.2]

theorem foldl_sgStep_filter (index : List (List Char × Node))
    (inter : List (List Char)) :
    ∀ g0 : StateGraph,
      inter.foldl (sgStep (index.map (fun p => (p.1, filterNode p.2)))) g0
        = inter.foldl (sgStep index) g0 := by
  induction inter with
  | nil => intro g0; rfl
  | cons i is ih =>
    intro g0
    rw [List.foldl_cons, List.foldl_cons, sgStep_filter]
    exact ih _

theorem buildStateGraph_filter (index : List (List Char × Node))
    (inter : List (List Char)) :
    buildStateGraph (index.map (fun p => (p.1, filterNode p.2))) inter
      = buildStateGraph index inter := by
  unfold buildStateGraph
  exact foldl_sgStep_filter index inter _

end SrcRust

namespace Pkg

open SDom

theorem inferLabel_text_cases (e : Element)
    (h1 : attrQ e "aria-label".data = none)
    (h2 : attrQ e "data-agent-label".data = none)
    (h3 : attrQ e "title".data = none) :
    (100 < (trimChars (elemText e)).length →
      inferLabel e = altPlaceholderChain e)
    ∧ (100 < byteLen (trimChars (elemText e)) →
      inferLabel e = altPlaceholderChain e)
    ∧ (trimChars (elemText e) ≠ [] →
      byteLen (trimChars (elemText e)) ≤ 100 →
      inferLabel e = trimChars (elemText e)) := by
  have hbody : inferLabel e =
      (if !(trimChars (elemText e)).isEmpty
          && byteLen (trimChars (elemText e)) ≤ 100 then
        trimChars (elemText e)
      else altPlaceholderChain e) := by
    unfold inferLabel altPlaceholderChain
    rw [h1, h2, h3]
  refine ⟨?_, ?_, ?_⟩
  · intro hchars
    have hbytes : 100 < byteLen (trimChars (elemText e)) :=
      lt_of_lt_of_le hchars (length_le_byteLen _)
    rw [hbody, if_neg]
    simp only [Bool.and_eq_true, decide_eq_true_eq, not_and]
    intro _
    omega
  · intro hbytes
    rw [hbody, if_neg]
    simp only [Bool.and_eq_true, decide_eq_true_eq, not_and]
    intro _
    omega
  · intro hne hle
    rw [hbody, if_pos]
    simp only [Bool.and_eq_true, decide_eq_true_eq,
      Bool.not_eq_true']
    exact ⟨by simp [List.isEmpty_iff, hne], hle⟩

end Pkg

open SDom SrcRust Pkg Claims

/-- C1.  The specification's central invariant — the id→node index and
the tree agree (every id in the index resolves to a node reachable
from the root, and every node reachable from the root has an entry in
the index) — is violated by the code: `SemanticDocumentBuilder::build`
initializes the index to an empty map and no code path ever populates
it, so the first conjunct shows the index of every built document is
empty, and the second shows the agreement check failing on a concrete
one-node document (the root is reachable but unindexed). -/
theorem C1_index_never_populated :
    (∀ (now : Nat) (url title lang : List Char) (gen : Nat)
      (root : PNode) (cert : PCert),
      (buildDoc now url title lang gen root cert).index = [])
    ∧ indexAgreesB (buildDoc 0 [] [] [] 0 c1node PCert.default) = false :=
  ⟨fun _ _ _ _ _ _ _ => rfl, by decide⟩

/-- C2 (counterexample).  The claim asserts that parsing
`<nav><a href="/">Home</a></nav><main><button>Submit</button></main>`
yields exactly 1 landmark; the parser in fact records 2 landmarks,
because `SemanticRole::Main` is also a landmark role and the `main`
element is collected alongside the `nav`. -/
theorem C2_counterexample :
    ((parse c2roots).map (fun d => d.landmarks.length) == some 1) = false
    ∧ (parse c2roots).map (fun d => d.landmarks.length) = some 2 := by
  constructor <;> decide

/-- C2 (amended).  Parsing the document yields exactly 2 landmarks —
the nav (role navigation) and the main (role main) — and exactly 2
interactables — the link (role link) and the button (role button,
inferred intent submit) — and the certification's has-landmark-regions
(`STRUCT-001`) and navigation-exists (`NAV-001`) checks both pass. -/
theorem C2_amended :
    (parse c2roots).map (fun d => d.landmarks)
      = some ["sdom_nav_1".data, "sdom_main_2".data]
    ∧ (parse c2roots).map (fun d =>
        (d.getNode "sdom_nav_1".data).map (fun n => n.role))
      = some (some Role.navigation)
    ∧ (parse c2roots).map (fun d =>
        (d.getNode "sdom_main_2".data).map (fun n => n.role))
      = some (some Role.main)
    ∧ (parse c2roots).map (fun d => d.interactables)
      = some ["sdom_a_3".data, "sdom_button_4".data]
    ∧ (parse c2roots).map (fun d =>
        (d.getNode "sdom_a_3".data).map (fun n => n.role))
      = some (some Role.link)
    ∧ (parse c2roots).map (fun d =>
        (d.getNode "sdom_button_4".data).map (fun n => (n.role, n.intent)))
      = some (some (Role.button, some Intent.submit))
    ∧ (parse c2roots).map (fun d =>
        checkPassed (certify d) "STRUCT-001".data) = some (some true)
    ∧ (parse c2roots).map (fun d =>
        checkPassed (certify d) "NAV-001".data) = some (some true) := by
  refine ⟨?_, ?_, ?_, ?_, ?_, ?_, ?_, ?_⟩ <;> decide

/-- C3 (counterexample).  The claim says the graph is reported
deterministic iff no two transitions share a `(from, trigger)` key
with *different* targets.  This graph repeats one transition twice —
same key, same target, so the claim's condition holds — yet
`is_deterministic` reports `false`, because the code flags any
repeated key regardless of targets. -/
theorem C3_counterexample :
    StateGraph.isDeterministic c3dupGraph = false
    ∧ noKeyClashDiffTarget c3dupGraph = true := by
  constructor <;> decide

/-- C3 (amended).  `is_deterministic` returns true iff no two
transitions at distinct positions share the same `(from, trigger)`
key, regardless of their targets; in particular the claim's concrete
scenario holds: two transitions with the same key and different
targets report false, and removing either restores true. -/
theorem C3_amended :
    (∀ g : StateGraph, g.isDeterministic = noKeyRepeat g.transitions)
    ∧ StateGraph.isDeterministic c3diffGraph = false
    ∧ StateGraph.isDeterministic c3only1 = true
    ∧ StateGraph.isDeterministic c3only2 = true :=
  ⟨isDeterministic_eq_noKeyRepeat, by decide, by decide, by decide⟩

/-- C4 (counterexample).  The claim's conclusion that the suffixing
scheme makes all ids within one SemanticDocument unique is false:
parsing one document (fresh parser) containing three buttons labeled
`a`, `a`, `a 2` assigns the id `btn-a-2` twice — the suffixed second
`a` button collides with the distinct base id of the `a 2` button. -/
theorem C4_counterexample :
    (Pkg.parseElement c4body []).map (fun p => Pkg.pnodeIds p.1)
      = some ["gene-aaa-2".data, "btn-a".data, "btn-a-2".data,
              "btn-a-2".data]
    ∧ nodupB ["gene-aaa-2".data, "btn-a".data, "btn-a-2".data,
              "btn-a-2".data] = false := by
  constructor <;> decide

/-- C4 (amended).  Starting from a fresh counter map, `n` allocator
requests for one shared base id return `n` distinct ids: the first is
the unsuffixed base id and the k-th (2 ≤ k ≤ n) is the base id with
numeric suffix `-k`; ids are therefore unique within each base-id
family (global document-wide uniqueness does not follow, per the
counterexample). -/
theorem C4_amended :
    ∀ (base : List Char) (n : Nat),
      (allocSame base n []).1 = expectedIds base n
      ∧ ((allocSame base n []).1).Nodup :=
  fun base n =>
    ⟨allocSame_ids base n, by
      rw [allocSame_ids]
      exact expectedIds_nodup base n⟩

/-- C5.  The claim (and §5/§9 of the specification) requires the
id-allocator counter state to be scoped to one parse invocation; the
code keeps `id_counters` on the long-lived parser struct and never
clears it, so a second parse of the same input on a used parser
produces different ids (`…-2` suffixes) than the same parse on a
fresh parser: counter state leaks across parse calls. -/
theorem C5_counter_state_leaks :
    ((Pkg.parseElement c5body []).map (fun p => Pkg.pnodeIds p.1))
      = some ["gene-submit".data, "btn-submit".data]
    ∧ ((Pkg.parseElement c5body []).bind (fun p =>
        (Pkg.parseElement c5body p.2).map (fun q => Pkg.pnodeIds q.1)))
      = some ["gene-submit-2".data, "btn-submit-2".data]
    ∧ (((Pkg.parseElement c5body []).bind (fun p =>
        (Pkg.parseElement c5body p.2).map (fun q => Pkg.pnodeIds q.1)))
      == ((Pkg.parseElement c5body []).map (fun p => Pkg.pnodeIds p.1)))
      = false := by
  refine ⟨?_, ?_, ?_⟩ <;> decide

/-- C6.  In the label resolution chain (`infer_label`), with no
higher-priority source present: trimmed text content longer than 100
characters is skipped entirely — never truncated — and the next
sources in the chain (`alt`, then `placeholder`, then empty) are tried
instead; trimmed non-empty text of at most 100 bytes (hence at most
100 characters) is used whole as the label. -/
theorem C6_label_length_gate (e : Element)
    (h1 : attrQ e "aria-label".data = none)
    (h2 : attrQ e "data-agent-label".data = none)
    (h3 : attrQ e "title".data = none) :
    (100 < (trimChars (elemText e)).length →
      inferLabel e = altPlaceholderChain e)
    ∧ (100 < byteLen (trimChars (elemText e)) →
      inferLabel e = altPlaceholderChain e)
    ∧ (trimChars (elemText e) ≠ [] →
      byteLen (trimChars (elemText e)) ≤ 100 →
      inferLabel e = trimChars (elemText e)) :=
  inferLabel_text_cases e h1 h2 h3

/-- C6 (witness): a span with 101 characters of text and an `alt`
attribute resolves its label from `alt`, skipping the text source. -/
theorem C6_witness :
    100 < (trimChars (elemText c6longTextEl)).length
    ∧ inferLabel c6longTextEl = altPlaceholderChain c6longTextEl
    ∧ altPlaceholderChain c6longTextEl = "pic".data :=
  ⟨by decide,
   (C6_label_length_gate c6longTextEl rfl rfl rfl).1 (by decide),
   by decide⟩

/-- C7.  `validate_url` fails with `InvalidUrlProtocol` whenever the
URL's scheme is one of the blocked script-execution/embedded-data
schemes (`javascript`, `data`, `vbscript`, `blob`, matched
case-insensitively by the scheme parser), and succeeds on
`https://example.com`, on every root-relative path (beginning with
`/`), and on every fragment-only reference (beginning with `#`). -/
theorem C7_validate_url :
    (∀ (url b rest : List Char), parseScheme url = some (b, rest) →
      b ∈ blockedProtocols → validateUrl url = .error b)
    ∧ validateUrl "https://example.com".data
      = .ok "https://example.com".data
    ∧ (∀ rest : List Char, validateUrl ('/' :: rest) = .ok ('/' :: rest))
    ∧ (∀ rest : List Char, validateUrl ('#' :: rest) = .ok ('#' :: rest)) :=
  ⟨validateUrl_blockedScheme, by decide, validateUrl_rootRelative,
   validateUrl_fragment⟩

/-- C7 (witness): concrete evaluations of each part. -/
theorem C7_witness :
    validateUrl "javascript:alert(1)".data = .error "javascript".data
    ∧ validateUrl "data:text/html".data = .error "data".data
    ∧ validateUrl "vbscript:msgbox".data = .error "vbscript".data
    ∧ validateUrl "blob:x".data = .error "blob".data
    ∧ validateUrl "/relative/path".data = .ok "/relative/path".data
    ∧ validateUrl "#fragment".data = .ok "#fragment".data :=
  ⟨C7_validate_url.1 _ "javascript".data "alert(1)".data (by decide)
      (by decide),
   C7_validate_url.1 _ "data".data "text/html".data (by decide)
      (by decide),
   C7_validate_url.1 _ "vbscript".data "msgbox".data (by decide)
      (by decide),
   C7_validate_url.1 _ "blob".data "x".data (by decide) (by decide),
   C7_validate_url.2.2.1 "relative/path".data,
   C7_validate_url.2.2.2 "fragment".data⟩

/-- C8.  A URL-protocol failure on a link never aborts the parse: for
every element tree, the real parse (with URL validation) equals the
counterfactual parse without URL validation with exactly the rejected
link targets dropped from their nodes — parse succeeds or panics
identically, every other field of every node, the category lists, the
metadata, and the state graph are unchanged. -/
theorem C8_url_failure_local_recovery :
    ∀ roots : List Element,
      parse roots = (parseG false roots).map filterDoc := by
  intro roots
  unfold parse parseG
  have hrel := foldlM_processElementG_rel (matchList roots) PState.init
  have hinit : filterPState PState.init = PState.init := rfl
  rw [hinit] at hrel
  rw [hrel]
  cases h : (matchList roots).foldlM
      (fun st p => processElementG false st p.1 p.2) PState.init with
  | none => rfl
  | some st =>
    simp [filterDoc, filterPState, buildStateGraph_filter]

/-- C9.  The claim that running the certification twice on the same
unchanged document always yields identical results is violated by the
source: `certify` adds the four per-category `f32` score terms in the
iteration order of a `std::collections::HashMap` it creates freshly
for each call, and that order varies from call to call
(`src/rust/src/certification.rs:144-162`).  This theorem pins the
failing document down in the exact-arithmetic model: parsing `c9roots`
(five nodes — a nav, a link whose label falls back to the tag name, a
titled video, a titled audio, and an article with text) yields a
document that passes exactly the checks STRUCT-001, STRUCT-004,
A11Y-001, NAV-001, NAV-002, NAV-003, INTEROP-001 and INTEROP-002, has
completeness 4/5, and whose exact total score is 73/100 exactly, a
truncation boundary of the `u32` score: its certified score is 73 and
level AA.  The four category terms and the completeness bonus, as the
nearest `f32` values (0.15000000596046448, 0.10000000894069672, 0.25,
0.15000000596046448 and 0.07999999821186066), sum to at least 0.73 in
8 of the 24 possible category orders and to just below 0.73 in the
other 16, so `(total_score * 100.0) as u32` is 73 on some runs and 72
on others: score and hence possibly level differ between two runs on
the same unchanged document, refuting the claimed determinism. -/
theorem C9_score_order_boundary :
    (parse c9roots).map (fun d =>
      ((certChecks d).map (fun c => c.passed),
       calculateCompleteness d, (certify d).score, (certify d).level))
    = some ([true, false, false, true, true, false, false, false,
             true, true, true, true, true], 4 / 5, 73, Level.aa) := by
  with_unfolding_all rfl

/-- C10.  The claim that parsing never panics is violated: on a button
whose text content has a two-byte UTF-8 character straddling byte
offset 47, `extract_element_label`'s `&text[..47]` slice panics and
the whole parse dies (first conjunct, `none` modelling the panic);
`truncate` in `summary.rs` and the default arm of `role_to_prefix`
panic the same way on their byte-slices (second and third
conjuncts). -/
theorem C10_parse_panics :
    parse c10roots = none
    ∧ truncateSummary c10title 30 = none
    ∧ Pkg.roleToPfx c10role = none := by
  refine ⟨?_, ?_, ?_⟩ <;> decide
